import Mathlib

/-!
Verification development for the NMOS IS-05 MXL active-endpoint monitor
(source: nmos_active_monitor.py).  The script is a single polling loop:
it discovers senders and receivers with MXL transport, polls each tracked
resource for its activation document, logs state transitions, and on
activation or deactivation writes or removes a flow-descriptor file and
spawns or terminates external helper processes.

The embedding below translates the script shallowly:

* Python dictionaries (active_state, source_processes, sink_processes,
  sender_flow_ids, sender_patterns) become association lists with
  dictionary-style lookup, assignment and deletion.
* HTTP fetches become oracle values supplied per step (PollEnv and
  DiscoverEnv).  A fetch that fails returns none; a response whose JSON
  body is falsy in Python (None, and for object responses also the empty
  object) is likewise modelled as none, since the script only tests these
  responses for truthiness.
* The descriptor-file directory becomes a list of file names present.
* subprocess.Popen becomes allocation of a fresh numeric pid; terminate
  calls are recorded as effects.
* A Python exception raised while a document is processed surfaces as
  Except.error.
* State-changing actions and the three classified log lines are recorded
  in an Effect list; purely informational prints are not modelled.
-/

/-- Dictionary lookup on an association list (first binding wins; built
through aset and aerase the list never holds two bindings of one key). -/
def alookup {α : Type} : List (String × α) → String → Option α
  | [], _ => none
  | (k, v) :: t, key => if k = key then some v else alookup t key

/-- Dictionary assignment d[k] = v: replace the binding in place when the
key is present, append it otherwise. -/
def aset {α : Type} : List (String × α) → String → α → List (String × α)
  | [], key, v => [(key, v)]
  | (k, w) :: t, key, v =>
    if k = key then (key, v) :: t else (k, w) :: aset t key v

/-- Dictionary deletion del d[k]. -/
def aerase {α : Type} : List (String × α) → String → List (String × α)
  | [], _ => []
  | (k, w) :: t, key => if k = key then aerase t key else (k, w) :: aerase t key

/-- Python truthiness of an optional string value (absent and the empty
string are falsy). -/
def strTruthy : Option String → Bool
  | none => false
  | some s => s ≠ ""

/-- Python str.startswith, computed on the character lists. -/
def startsW (s p : String) : Bool :=
  p.data.isPrefixOf s.data

/-- Python str.removeprefix: drop the leading text when present. -/
def removePre (s p : String) : String :=
  if startsW s p then String.mk (s.data.drop p.data.length) else s

/-- Python str.rstrip applied with the slash character. -/
def rstripSlash (s : String) : String :=
  String.mk ((s.data.reverse.dropWhile fun c => c = '/').reverse)

/-- Exception surfaced while processing a JSON document. -/
inductive PyErr where
  | indexError
deriving DecidableEq

/-- First element of the transport_params sequence of an activation
document. -/
structure TransportParam where
  flow_id : Option String
deriving DecidableEq

/-- Activation document returned by GET single/.../active.  Absent fields
are none. -/
structure ActiveDoc where
  master_enable : Option Bool
  transport_params : Option (List TransportParam)
deriving DecidableEq

/-- Flow document returned by the Node API, restricted to the fields the
script reads or writes. -/
structure FlowDoc where
  format : Option String
  source_id : Option String
  tags : List (String × String)
  channel_count : Option Nat
deriving DecidableEq

/-- Sender or receiver document returned by the Node API (tags and format
are the only fields read). -/
structure ResourceDoc where
  tags : Option (List (String × String))
  format : Option String
deriving DecidableEq

/-- Source document returned by the Node API (only the channel list is
read, and only its length is used). -/
structure SourceDoc where
  channels : Option (List String)
deriving DecidableEq

/-- Responses of the GET requests a single poll of one key can issue:
the activation document, the flow document for the resolved flow id, the
resource document for the key, and the source document for the flow
source. none stands for a failed fetch or a falsy body. -/
structure PollEnv where
  active : Option ActiveDoc
  flow : Option FlowDoc
  resource : Option ResourceDoc
  source : Option SourceDoc

/-- Responses of the GET requests one discovery pass can issue. -/
structure DiscoverEnv where
  listing : String → Option (List String)
  ttype : String → String → Option String

def BASE_RESOURCE_TYPES : List String := ["senders", "receivers"]

def MXL_TRANSPORT : String := "urn:x-nmos:transport:mxl"

def FORMAT_AUDIO : String := "urn:x-nmos:format:audio"

/-- Test patterns available to senders (the uncommented tail of the
TEST_PATTERNS list in the script). -/
def TEST_PATTERNS : List String := ["colors", "red"]

/-- Pattern memoization (function _pattern_for_sender): look the sender id
up in sender_patterns; on a miss bind it to
TEST_PATTERNS[len(sender_patterns) % len(TEST_PATTERNS)].  Returns the
pattern together with the updated sender_patterns dictionary. -/
def patternFor (pats : List (String × String)) (sender_id : String) :
    String × List (String × String) :=
  match alookup pats sender_id with
  | some p => (p, pats)
  | none =>
    let p := TEST_PATTERNS.getD (pats.length % TEST_PATTERNS.length) ""
    (p, aset pats sender_id p)

/-- Discovery (function discover_resources): per resource type, the ids
whose transporttype fetch returned exactly the MXL transport URN; a failed
listing fetch yields the empty list for that type. -/
def discoverResources (env : DiscoverEnv) : List (String × List String) :=
  BASE_RESOURCE_TYPES.map fun rtype =>
    match env.listing rtype with
    | none => (rtype, [])
    | some entries =>
      (rtype, (entries.map rstripSlash).filter fun rid =>
        env.ttype rtype rid = some MXL_TRANSPORT)

/-- Keys of the form type/id produced by one discovery result. -/
def discoveredKeys (res : List (String × List String)) : List String :=
  (res.map fun p => p.2.map fun rid => p.1 ++ "/" ++ rid).flatten

/-- Global monitor state: the five dictionaries of the script, the set of
descriptor files present in the MXL domain directory, and the next fresh
pid for spawned processes. -/
structure MonState where
  active_state : List (String × Option Bool)
  source_processes : List (String × Nat)
  sink_processes : List (String × Nat)
  sender_flow_ids : List (String × String)
  sender_patterns : List (String × String)
  files : List String
  next_pid : Nat
deriving DecidableEq

def initState : MonState :=
  { active_state := [], source_processes := [], sink_processes := [],
    sender_flow_ids := [], sender_patterns := [], files := [], next_pid := 0 }

/-- Observable actions of one step: the three classified log lines, file
writes and removals in the domain directory, and process spawns and
terminate calls. -/
inductive Effect where
  | logInitial (key : String) (active : Bool)
  | logBecameActive (key : String)
  | logBecameInactive (key : String)
  | writeFile (name : String)
  | removeFile (name : String)
  | spawnSource (key : String) (pid : Nat) (flag : String) (pat : String)
  | spawnSink (key : String) (pid : Nat) (flag : String) (fid : String)
  | terminate (pid : Nat)
deriving DecidableEq

/-- File creation: Path.write_text creates the file when absent. -/
def insertFile (name : String) (fs : List String) : List String :=
  if name ∈ fs then fs else name :: fs

/-- File removal: Path.unlink with missing_ok, so removing an absent file
is a no-op. -/
def removeFileFS (name : String) : List String → List String
  | [] => []
  | m :: t => if m = name then removeFileFS name t else m :: removeFileFS name t

/-- Flow-id extraction from an activation document, line for line:
data.get with the singleton default list, indexing the first element, then
reading flow_id.  An empty transport_params list raises IndexError. -/
def extractFlowId (doc : ActiveDoc) : Except PyErr (Option String) :=
  match doc.transport_params with
  | none => .ok none
  | some [] => .error .indexError
  | some (p :: _) => .ok p.flow_id

/-- Sender activation side effect, after the flow id resolved to the
truthy string f: record the sender-to-flow binding, and when the flow
fetch yields data, enrich the flow document (tags from the resource
document when fetched; channel count from the source document for audio
flows with a truthy source_id), write the descriptor file f.json, pick
the memoized test pattern, and spawn the source-generator process. -/
def senderActivate (s : MonState) (key f : String) (env : PollEnv) :
    MonState × List Effect :=
  let s0 := { s with sender_flow_ids := aset s.sender_flow_ids key f }
  match env.flow with
  | none => (s0, [])
  | some flow0 =>
    let flow1 :=
      match env.resource with
      | some rd => { flow0 with tags := rd.tags.getD [] }
      | none => flow0
    let flow2 :=
      if flow1.format = some FORMAT_AUDIO then
        if strTruthy flow1.source_id then
          match env.source with
          | some sd => { flow1 with channel_count := some (sd.channels.getD []).length }
          | none => flow1
        else flow1
      else flow1
    let fname := f ++ ".json"
    let flag := if flow2.format = some FORMAT_AUDIO then "-a" else "-v"
    let sender_id := removePre key "senders/"
    let pp := patternFor s0.sender_patterns sender_id
    let pid := s0.next_pid
    ({ s0 with files := insertFile fname s0.files,
               sender_patterns := pp.2,
               source_processes := aset s0.source_processes key pid,
               next_pid := pid + 1 },
     [Effect.writeFile fname, Effect.spawnSource key pid flag pp.1])

/-- Receiver activation side effect, after the flow id resolved to the
truthy string f: pick the media-kind flag from the receiver document when
its fetch yields data (video otherwise) and spawn the sink process. -/
def receiverActivate (s : MonState) (key f : String) (env : PollEnv) :
    MonState × List Effect :=
  let fmt := match env.resource with
    | some rd => rd.format
    | none => none
  let flag := if fmt = some FORMAT_AUDIO then "-a" else "-v"
  let pid := s.next_pid
  ({ s with sink_processes := aset s.sink_processes key pid,
            next_pid := pid + 1 },
   [Effect.spawnSink key pid flag f])

/-- Sender part of the deactivation side effect: when a flow binding is
recorded, terminate the source process when one is tracked, remove the
descriptor file of the bound flow, and drop the binding. -/
def deactSender (s : MonState) (key : String) : MonState × List Effect :=
  if startsW key "senders/" then
    match alookup s.sender_flow_ids key with
    | some f =>
      let inner :=
        match alookup s.source_processes key with
        | some pid =>
          ({ s with source_processes := aerase s.source_processes key },
           [Effect.terminate pid])
        | none => (s, [])
      let fname := f ++ ".json"
      ({ inner.1 with files := removeFileFS fname inner.1.files,
                      sender_flow_ids := aerase inner.1.sender_flow_ids key },
       inner.2 ++ [Effect.removeFile fname])
    | none => (s, [])
  else (s, [])

/-- Receiver part of the deactivation side effect: terminate the sink
process when one is tracked. -/
def deactReceiver (s : MonState) (key : String) : MonState × List Effect :=
  if startsW key "receivers/" then
    match alookup s.sink_processes key with
    | some pid =>
      ({ s with sink_processes := aerase s.sink_processes key },
       [Effect.terminate pid])
    | none => (s, [])
  else (s, [])

/-- Deactivation side effect: the sender block followed by the receiver
block, as the two consecutive guarded blocks of the loop body. -/
def applyDeactivation (s : MonState) (key : String) : MonState × List Effect :=
  let p1 := deactSender s key
  let p2 := deactReceiver p1.1 key
  (p2.1, p1.2 ++ p2.2)

/-- Log lines of one poll: initial state on the first successful poll,
became ACTIVE when the recorded state was inactive and the new value is
true, became INACTIVE when the recorded state was active and the new
value is false. -/
def logLines (key : String) (prev : Option Bool) (me : Bool) : List Effect :=
  match prev, me with
  | none, _ => [Effect.logInitial key me]
  | some false, true => [Effect.logBecameActive key]
  | some true, false => [Effect.logBecameInactive key]
  | _, _ => []

/-- Activation branch of the loop body (if master_enable and not prev):
extract the flow id, then run the sender or receiver activation side
effect when the key has that role and the flow id is truthy. -/
def actStep (s : MonState) (key : String) (doc : ActiveDoc) (env : PollEnv)
    (me : Bool) (prev : Option Bool) : Except PyErr (MonState × List Effect) :=
  if me = true ∧ prev ≠ some true then
    match extractFlowId doc with
    | .error e => .error e
    | .ok fid =>
      let p1 :=
        if startsW key "senders/" && strTruthy fid then
          senderActivate s key (fid.getD "") env
        else (s, [])
      let p2 :=
        if startsW key "receivers/" && strTruthy fid then
          receiverActivate p1.1 key (fid.getD "") env
        else (p1.1, [])
      .ok (p2.1, p1.2 ++ p2.2)
  else .ok (s, [])

/-- Deactivation branch of the loop body (if not master_enable and prev). -/
def deactStep (s : MonState) (key : String) (me : Bool) (prev : Option Bool) :
    MonState × List Effect :=
  if me = false ∧ prev = some true then applyDeactivation s key else (s, [])

/-- One poll of one tracked key (loop body, lines 95-170): a failed fetch
of the activation document skips the key; otherwise read master_enable
with default false, diff against the recorded state, log, run the
activation or deactivation side effects, and record the new state. -/
def pollKey (s : MonState) (key : String) (env : PollEnv) :
    Except PyErr (MonState × List Effect) :=
  match env.active with
  | none => .ok (s, [])
  | some doc =>
    let me := doc.master_enable.getD false
    let prev := (alookup s.active_state key).join
    let logs := logLines key prev me
    match actStep s key doc env me prev with
    | .error e => .error e
    | .ok p1 =>
      let p2 := deactStep p1.1 key me prev
      .ok ({ p2.1 with active_state := aset p2.1.active_state key (some me) },
           logs ++ p1.2 ++ p2.2)

/-- Re-discovery (lines 84-93): rebuild active_state as the dictionary
comprehension over the newly discovered keys, carrying the previously
recorded value of each key (absent keys start at None).  The process and
binding dictionaries are untouched. -/
def rediscover (s : MonState) (res : List (String × List String)) : MonState :=
  { s with active_state :=
      (discoveredKeys res).map fun k => (k, (alookup s.active_state k).join) }

/-- Shutdown handler (KeyboardInterrupt, lines 205-215): terminate every
tracked source process, then every tracked sink process, then unlink the
descriptor file of every outstanding sender-to-flow binding. -/
def shutdown (s : MonState) : MonState × List Effect :=
  let fx1 := s.source_processes.map fun e => Effect.terminate e.2
  let fx2 := s.sink_processes.map fun e => Effect.terminate e.2
  let files2 := s.sender_flow_ids.foldl
    (fun fs e => removeFileFS (e.2 ++ ".json") fs) s.files
  let fx3 := s.sender_flow_ids.map fun e => Effect.removeFile (e.2 ++ ".json")
  ({ s with files := files2 }, fx1 ++ fx2 ++ fx3)

/-- External stimuli of the loop: a re-discovery pass with the responses
the discovery fetches received, or a poll of one tracked key with the
responses its fetches received.  Any schedule the real loop produces
(re-discovery every rediscover_every ticks, every tracked key polled per
tick) is a list of these events. -/
inductive Event where
  | redisc (env : DiscoverEnv)
  | poll (key : String) (env : PollEnv)

def stepEvent (s : MonState) : Event → Except PyErr (MonState × List Effect)
  | .redisc env => .ok (rediscover s (discoverResources env), [])
  | .poll key env => pollKey s key env

/-- Run of the monitor over a list of events, accumulating effects. -/
def runEvents (s : MonState) : List Event → Except PyErr (MonState × List Effect)
  | [] => .ok (s, [])
  | e :: es =>
    match stepEvent s e with
    | .error err => .error err
    | .ok p1 =>
      match runEvents p1.1 es with
      | .error err => .error err
      | .ok p2 => .ok (p2.1, p1.2 ++ p2.2)

/-! ### Auxiliary definitions and concrete instances used by the theorems -/

/-- Tracked state before the C1 counterexample re-discovery: one sender is
tracked and active, with a live source process and a flow binding. -/
def c1s : MonState :=
  { active_state := [("senders/a", some true)],
    source_processes := [("senders/a", 0)],
    sink_processes := [],
    sender_flow_ids := [("senders/a", "f1")],
    sender_patterns := [("a", "colors")],
    files := ["f1.json"],
    next_pid := 1 }

/-- Discovery responses in which the sender listing comes back empty, so
the new discovery result no longer reports the tracked key. -/
def c1disc : DiscoverEnv :=
  { listing := fun _ => some [], ttype := fun _ _ => none }

/-- State of the sender_patterns dictionary after a further sequence of
pattern lookups (one call of _pattern_for_sender per listed sender id). -/
def patternsAfter (pats : List (String × String)) : List String → List (String × String)
  | [] => pats
  | t :: ts => patternsAfter (patternFor pats t).2 ts

/-- Activation document with master_enable true and a present but empty
transport_params list. -/
def c4doc : ActiveDoc := { master_enable := some true, transport_params := some [] }

def c4env : PollEnv :=
  { active := some c4doc, flow := none, resource := none, source := none }

def c4s : MonState := { initState with active_state := [("senders/a", none)] }

/-- Classifier for the two transition log lines. -/
def isTransLog : Effect → Bool
  | .logBecameActive _ => true
  | .logBecameInactive _ => true
  | _ => false

def c3s : MonState := { initState with active_state := [("senders/a", none)] }

def c3doc : ActiveDoc :=
  { master_enable := some true, transport_params := some [{ flow_id := none }] }

def c3env : PollEnv :=
  { active := some c3doc, flow := none, resource := none, source := none }

def c3ws : MonState := { initState with active_state := [("senders/a", some false)] }

def c7doc : ActiveDoc :=
  { master_enable := some true, transport_params := some [{ flow_id := some "f1" }] }

def c7fd : FlowDoc :=
  { format := none, source_id := none, tags := [], channel_count := none }

def c7env : PollEnv :=
  { active := some c7doc, flow := some c7fd, resource := none, source := none }

/-- Discovery responses reporting the single sender s1 with MXL transport. -/
def c7discS1 : DiscoverEnv :=
  { listing := fun rt => if rt = "senders" then some ["s1"] else some [],
    ttype := fun _ _ => some MXL_TRANSPORT }

/-- Discovery responses reporting nothing. -/
def c7discNone : DiscoverEnv :=
  { listing := fun _ => some [], ttype := fun _ _ => none }

/-- Schedule the loop itself produces: discover s1, poll it active (first
spawn), re-discover while the listing is empty (the key is pruned, its
process stays), re-discover with s1 back (state restarts at unknown), poll
it active again (second spawn). -/
def c7events : List Event :=
  [Event.redisc c7discS1, Event.poll "senders/s1" c7env,
   Event.redisc c7discNone, Event.redisc c7discS1,
   Event.poll "senders/s1" c7env]

def c7ws : MonState := { initState with active_state := [("senders/s1", some true)] }

def c7wenv : PollEnv :=
  { active := some c7doc, flow := none, resource := none, source := none }

def c9s : MonState :=
  { active_state := [("senders/a", some true), ("receivers/b", some true)],
    source_processes := [("senders/a", 0)],
    sink_processes := [("receivers/b", 1)],
    sender_flow_ids := [("senders/a", "f1")],
    sender_patterns := [("a", "colors")],
    files := ["f1.json"],
    next_pid := 2 }

/-- Invariant: every key holding a source-process handle also holds a
sender-to-flow binding. -/
def SenderInv (s : MonState) : Prop :=
  ∀ k, (alookup s.source_processes k).isSome = true →
    (alookup s.sender_flow_ids k).isSome = true

def c2s : MonState := { initState with active_state := [("senders/s1", none)] }

def c2doc : ActiveDoc :=
  { master_enable := some true, transport_params := some [{ flow_id := some "f1" }] }

def c2envNoFlow : PollEnv :=
  { active := some c2doc, flow := none, resource := none, source := none }

def c2postNoFlow : MonState :=
  { initState with
      active_state := [("senders/s1", some true)],
      sender_flow_ids := [("senders/s1", "f1")] }

def c2fd : FlowDoc :=
  { format := none, source_id := none, tags := [], channel_count := none }

def c2envFlow : PollEnv :=
  { active := some c2doc, flow := some c2fd, resource := none, source := none }

def c2docOff : ActiveDoc :=
  { master_enable := some false, transport_params := some [{ flow_id := some "f1" }] }

def c2envOff : PollEnv :=
  { active := some c2docOff, flow := none, resource := none, source := none }

def c10disc : DiscoverEnv :=
  { listing := fun rt => if rt = "senders" then some ["s1"] else some [],
    ttype := fun _ _ => some MXL_TRANSPORT }

def c10env : PollEnv :=
  { active := some c2doc, flow := some c2fd, resource := none, source := none }

def c10events : List Event :=
  [Event.redisc c10disc, Event.poll "senders/s1" c10env]

def c10post : MonState :=
  { active_state := [("senders/s1", some true)],
    source_processes := [("senders/s1", 0)],
    sink_processes := [],
    sender_flow_ids := [("senders/s1", "f1")],
    sender_patterns := [("s1", "colors")],
    files := ["f1.json"],
    next_pid := 1 }

def c10fx : List Effect :=
  [Effect.logInitial "senders/s1" true, Effect.writeFile "f1.json",
   Effect.spawnSource "senders/s1" 0 "-v" "colors"]

/-! ### Dictionary and file-set lemmas -/

theorem alookup_aset_self {a : Type} (l : List (String × a)) (k : String) (v : a) :
    alookup (aset l k v) k = some v := by
  induction l with
  | nil => simp [aset, alookup]
  | cons hd t ih =>
    rcases hd with ⟨k0, w⟩
    by_cases hk : k0 = k
    · simp [aset, hk, alookup]
    · simp [aset, hk, alookup, ih]

theorem alookup_aset_ne {a : Type} (l : List (String × a)) (k k' : String) (v : a)
    (h : k' ≠ k) : alookup (aset l k v) k' = alookup l k' := by
  have h2 : ¬ (k = k') := fun hh => h hh.symm
  induction l with
  | nil => simp [aset, alookup, h2]
  | cons hd t ih =>
    rcases hd with ⟨k0, w⟩
    by_cases hk : k0 = k
    · subst hk
      simp [aset, alookup, h2]
    · simp [aset, hk, alookup, ih]

theorem alookup_aerase_self {a : Type} (l : List (String × a)) (k : String) :
    alookup (aerase l k) k = none := by
  induction l with
  | nil => simp [aerase, alookup]
  | cons hd t ih =>
    rcases hd with ⟨k0, w⟩
    by_cases hk : k0 = k
    · simp [aerase, hk, ih]
    · simp [aerase, hk, alookup, ih]

theorem alookup_aerase_ne {a : Type} (l : List (String × a)) (k k' : String)
    (h : k' ≠ k) : alookup (aerase l k) k' = alookup l k' := by
  induction l with
  | nil => simp [aerase]
  | cons hd t ih =>
    rcases hd with ⟨k0, w⟩
    by_cases hk : k0 = k
    · subst hk
      have h2 : ¬ (k0 = k') := fun hh => h hh.symm
      simp [aerase, alookup, h2, ih]
    · simp [aerase, hk, alookup, ih]

theorem alookup_keyMap {a : Type} (f : String → a) (ks : List String) (k : String) :
    alookup (ks.map fun x => (x, f x)) k = if k ∈ ks then some (f k) else none := by
  induction ks with
  | nil => simp [alookup]
  | cons hd t ih =>
    by_cases hk : hd = k
    · subst hk
      simp [alookup, ih]
    · have h2 : ¬ (k = hd) := fun hh => hk hh.symm
      by_cases hm : k ∈ t
      · simp [alookup, hk, ih, hm, h2]
      · simp [alookup, hk, ih, hm, h2]

theorem mem_insertFile_self (n : String) (fs : List String) : n ∈ insertFile n fs := by
  by_cases h : n ∈ fs <;> simp [insertFile, h]

theorem mem_of_mem_removeFileFS (x n : String) (fs : List String)
    (h : x ∈ removeFileFS n fs) : x ∈ fs := by
  induction fs with
  | nil => exact h
  | cons m t ih =>
    by_cases hm : m = n
    · simp only [removeFileFS, if_pos hm] at h
      exact List.mem_cons_of_mem m (ih h)
    · simp only [removeFileFS, if_neg hm, List.mem_cons] at h
      rcases h with h | h
      · exact h ▸ List.mem_cons_self m t
      · exact List.mem_cons_of_mem m (ih h)

theorem not_mem_removeFileFS_self (n : String) (fs : List String) :
    n ∉ removeFileFS n fs := by
  induction fs with
  | nil => simp [removeFileFS]
  | cons m t ih =>
    by_cases hm : m = n
    · simpa [removeFileFS, hm] using ih
    · have h2 : ¬ (n = m) := fun hh => hm hh.symm
      simp [removeFileFS, hm, ih, h2]

/-! ### C1 and C5: what one re-discovery pass does to the tracked state -/

/-- Claim C1 as stated is false: the key senders/a is tracked (and active)
before a re-discovery pass whose discovery result no longer reports it,
and after the pass it is no longer tracked at all — the loop rebuilds
active_state from exactly the newly discovered keys, pruning the rest. -/
theorem C1_counterexample :
    (alookup c1s.active_state "senders/a").isSome = true ∧
    alookup (rediscover c1s (discoverResources c1disc)).active_state "senders/a" = none := by
  exact ⟨rfl, rfl⟩

/-- Claim C1, amended: a re-discovery pass replaces the tracked key set
with exactly the keys the new discovery reports — keys no longer reported
are dropped from tracking — while the process-handle and flow-binding
dictionaries are left untouched by the pass (so the side effects of a
pruned key are indeed never cleaned up). -/
theorem C1_amended (s : MonState) (res : List (String × List String)) :
    (∀ k, (alookup (rediscover s res).active_state k).isSome = true ↔
       k ∈ discoveredKeys res) ∧
    (rediscover s res).source_processes = s.source_processes ∧
    (rediscover s res).sink_processes = s.sink_processes ∧
    (rediscover s res).sender_flow_ids = s.sender_flow_ids := by
  refine ⟨fun k => ?_, rfl, rfl, rfl⟩
  rw [rediscover]
  simp only
  rw [alookup_keyMap]
  by_cases hm : k ∈ discoveredKeys res <;> simp [hm]

/-- Claim C5: a re-discovery pass carries the recorded activation state of
every key the new discovery reports — a key with a recorded state keeps
exactly that state, and a key without one (newly discovered) starts at the
unknown state none. -/
theorem C5_rediscover_preserves (s : MonState) (res : List (String × List String))
    (k : String) (h : k ∈ discoveredKeys res) :
    alookup (rediscover s res).active_state k = some ((alookup s.active_state k).join) := by
  rw [rediscover]
  simp only
  rw [alookup_keyMap]
  simp [h]

/-- Witness for C5: a pass that re-discovers a key recorded inactive keeps
the recorded state some false, in a state where another key is absent. -/
theorem C5_witness :
    alookup (rediscover
      { initState with active_state := [("senders/a", some false)] }
      [("senders", ["a"])]).active_state "senders/a" = some (some false) :=
  C5_rediscover_preserves
    { initState with active_state := [("senders/a", some false)] }
    [("senders", ["a"])] "senders/a" (by decide)

/-! ### C8: pattern assignment is memoized and deterministic -/

theorem patternFor_hit (q : List (String × String)) (sid p : String)
    (h : alookup q sid = some p) : patternFor q sid = (p, q) := by
  rw [patternFor, h]

theorem patternFor_stable (q : List (String × String)) (t sid p : String)
    (h : alookup q sid = some p) : alookup (patternFor q t).2 sid = some p := by
  rw [patternFor]
  cases ht : alookup q t with
  | some v => exact h
  | none =>
    simp only
    by_cases he : sid = t
    · rw [he] at h
      rw [h] at ht
      cases ht
    · rw [alookup_aset_ne q t sid _ he]
      exact h

theorem patternsAfter_stable (ids : List String) (q : List (String × String))
    (sid p : String) (h : alookup q sid = some p) :
    alookup (patternsAfter q ids) sid = some p := by
  induction ids generalizing q with
  | nil => exact h
  | cons t ts ih => exact ih _ (patternFor_stable q t sid p h)

/-- Claim C8: pattern assignment is memoized and deterministic.  When a
sender id is not yet bound and N ids are already bound, the id receives
TEST_PATTERNS[N mod len(TEST_PATTERNS)], and after any further sequence of
lookups (for this or other sender ids) a lookup for the same id still
returns that same pattern. -/
theorem C8_pattern_memoized (pats : List (String × String)) (sid : String)
    (h : alookup pats sid = none) :
    (patternFor pats sid).1 =
      TEST_PATTERNS.getD (pats.length % TEST_PATTERNS.length) "" ∧
    ∀ ids, (patternFor (patternsAfter (patternFor pats sid).2 ids) sid).1 =
      (patternFor pats sid).1 := by
  have hmiss : patternFor pats sid =
      (TEST_PATTERNS.getD (pats.length % TEST_PATTERNS.length) "",
       aset pats sid (TEST_PATTERNS.getD (pats.length % TEST_PATTERNS.length) "")) := by
    rw [patternFor, h]
  refine ⟨by rw [hmiss], fun ids => ?_⟩
  have hb : alookup (patternFor pats sid).2 sid = some (patternFor pats sid).1 := by
    rw [hmiss]
    exact alookup_aset_self pats sid _
  have hs := patternsAfter_stable ids _ sid _ hb
  rw [patternFor_hit _ _ _ hs]

/-- Witness for C8: with no patterns assigned, sender id a (the 0th
distinct sender) receives TEST_PATTERNS[0] = colors, and still maps to
colors after lookups for two further senders b and c wrapped around the
two-element pattern list. -/
theorem C8_witness :
    (patternFor [] "a").1 = TEST_PATTERNS.getD (0 % TEST_PATTERNS.length) "" ∧
    (patternFor (patternsAfter (patternFor [] "a").2 ["b", "c"]) "a").1 =
      (patternFor [] "a").1 :=
  ⟨(C8_pattern_memoized [] "a" rfl).1,
   (C8_pattern_memoized [] "a" rfl).2 ["b", "c"]⟩

/-! ### C6: a failed poll fetch is a no-op for the key -/

/-- Claim C6: when the fetch of the activation document fails (returns no
data), the poll of that key leaves the whole monitor state unchanged,
records no transition and runs no side effect. -/
theorem C6_failed_fetch_noop (s : MonState) (key : String) (env : PollEnv)
    (h : env.active = none) : pollKey s key env = .ok (s, []) := by
  rw [pollKey, h]

/-- Witness for C6: a poll of a tracked active sender whose fetch failed
leaves the state untouched and produces no effect. -/
theorem C6_witness :
    pollKey c1s "senders/a"
      { active := none, flow := none, resource := none, source := none } =
      .ok (c1s, []) :=
  C6_failed_fetch_noop c1s "senders/a" _ rfl

/-! ### C4: processing an activation document can raise (code bug) -/

/-- Claim C4 is right about the intent and the code slips: for a tracked
key polled active, a document whose transport_params field is present but
an empty list makes the indexing expression
data.get with default, applied at index 0, raise IndexError — the default
only covers an absent field, not a present empty list, so processing the
activation document is fatal there. -/
theorem C4_code_bug :
    pollKey c4s "senders/a" c4env = .error PyErr.indexError := by rfl

/-! ### C3: transition logging -/

theorem senderActivate_no_translog (s : MonState) (key f : String) (env : PollEnv) :
    ∀ e ∈ (senderActivate s key f env).2, isTransLog e = false := by
  intro e he
  rw [senderActivate] at he
  rcases hf : env.flow with _ | fd
  · rw [hf] at he
    simp at he
  · rw [hf] at he
    simp only [List.mem_cons, List.not_mem_nil, or_false] at he
    rcases he with rfl | rfl <;> rfl

theorem receiverActivate_no_translog (s : MonState) (key f : String) (env : PollEnv) :
    ∀ e ∈ (receiverActivate s key f env).2, isTransLog e = false := by
  intro e he
  rw [receiverActivate] at he
  simp only [List.mem_cons, List.not_mem_nil, or_false] at he
  subst he
  rfl

theorem deactSender_no_translog (s : MonState) (key : String) :
    ∀ e ∈ (deactSender s key).2, isTransLog e = false := by
  intro e he
  rw [deactSender] at he
  by_cases hs : startsW key "senders/" = true
  · rw [if_pos hs] at he
    rcases hf : alookup s.sender_flow_ids key with _ | f
    · rw [hf] at he
      simp at he
    · rw [hf] at he
      dsimp only at he
      rcases hp : alookup s.source_processes key with _ | pid
      · rw [hp] at he
        simp only [List.nil_append, List.mem_singleton] at he
        subst he
        rfl
      · rw [hp] at he
        simp only [List.cons_append, List.nil_append, List.mem_cons,
          List.not_mem_nil, or_false] at he
        rcases he with rfl | rfl <;> rfl
  · rw [if_neg hs] at he
    simp at he

theorem deactReceiver_no_translog (s : MonState) (key : String) :
    ∀ e ∈ (deactReceiver s key).2, isTransLog e = false := by
  intro e he
  rw [deactReceiver] at he
  by_cases hs : startsW key "receivers/" = true
  · rw [if_pos hs] at he
    rcases hp : alookup s.sink_processes key with _ | pid
    · rw [hp] at he
      simp at he
    · rw [hp] at he
      simp only [List.mem_singleton] at he
      subst he
      rfl
  · rw [if_neg hs] at he
    simp at he

theorem applyDeactivation_no_translog (s : MonState) (key : String) :
    ∀ e ∈ (applyDeactivation s key).2, isTransLog e = false := by
  intro e he
  rw [applyDeactivation] at he
  dsimp only at he
  rw [List.mem_append] at he
  rcases he with he | he
  · exact deactSender_no_translog s key e he
  · exact deactReceiver_no_translog (deactSender s key).1 key e he

theorem actStep_no_translog (s : MonState) (key : String) (doc : ActiveDoc)
    (env : PollEnv) (me : Bool) (prev : Option Bool) (p : MonState × List Effect)
    (hr : actStep s key doc env me prev = .ok p) :
    ∀ e ∈ p.2, isTransLog e = false := by
  intro e he
  rw [actStep] at hr
  by_cases hc : me = true ∧ prev ≠ some true
  · rw [if_pos hc] at hr
    rcases hfid : extractFlowId doc with err | fid
    · rw [hfid] at hr
      cases hr
    · rw [hfid] at hr
      dsimp only at hr
      cases hr
      rw [List.mem_append] at he
      rcases he with he | he
      · by_cases h1 : (startsW key "senders/" && strTruthy fid) = true
        · rw [if_pos h1] at he
          exact senderActivate_no_translog s key (fid.getD "") env e he
        · rw [if_neg h1] at he
          simp at he
      · by_cases h1 : (startsW key "senders/" && strTruthy fid) = true <;>
          by_cases h2 : (startsW key "receivers/" && strTruthy fid) = true <;>
          simp only [h1, h2, if_pos, if_neg, if_true, if_false, Bool.false_eq_true] at he <;>
          first
            | exact receiverActivate_no_translog _ key (fid.getD "") env e he
            | simp at he
  · rw [if_neg hc] at hr
    cases hr
    simp at he

theorem deactStep_no_translog (s : MonState) (key : String) (me : Bool)
    (prev : Option Bool) :
    ∀ e ∈ (deactStep s key me prev).2, isTransLog e = false := by
  intro e he
  rw [deactStep] at he
  by_cases hc : me = false ∧ prev = some true
  · rw [if_pos hc] at he
    exact applyDeactivation_no_translog s key e he
  · rw [if_neg hc] at he
    simp at he

theorem mem_logBecameActive_logLines (key : String) (prev : Option Bool) (me : Bool)
    (k : String) :
    Effect.logBecameActive k ∈ logLines key prev me ↔
      (k = key ∧ prev = some false ∧ me = true) := by
  rcases prev with _ | b
  · simp [logLines]
  · cases b <;> cases me <;> simp [logLines]

theorem mem_logBecameInactive_logLines (key : String) (prev : Option Bool) (me : Bool)
    (k : String) :
    Effect.logBecameInactive k ∈ logLines key prev me ↔
      (k = key ∧ prev = some true ∧ me = false) := by
  rcases prev with _ | b
  · simp [logLines]
  · cases b <;> cases me <;> simp [logLines]

/-- Successful poll decomposition: with a fetched document, the result
state and effects of pollKey are the log lines followed by the activation
and deactivation effects, with the new state recorded last. -/
theorem pollKey_ok_elim (s : MonState) (key : String) (env : PollEnv)
    (doc : ActiveDoc) (s2 : MonState) (fx : List Effect)
    (ha : env.active = some doc) (hr : pollKey s key env = .ok (s2, fx)) :
    ∃ p1, actStep s key doc env (doc.master_enable.getD false)
        ((alookup s.active_state key).join) = .ok p1 ∧
      fx = logLines key ((alookup s.active_state key).join)
          (doc.master_enable.getD false) ++ p1.2 ++
        (deactStep p1.1 key (doc.master_enable.getD false)
          ((alookup s.active_state key).join)).2 ∧
      s2 = { (deactStep p1.1 key (doc.master_enable.getD false)
               ((alookup s.active_state key).join)).1 with
             active_state := aset (deactStep p1.1 key (doc.master_enable.getD false)
               ((alookup s.active_state key).join)).1.active_state key
               (some (doc.master_enable.getD false)) } := by
  rw [pollKey, ha] at hr
  dsimp only at hr
  rcases hact : actStep s key doc env (doc.master_enable.getD false)
      ((alookup s.active_state key).join) with e | p1
  · rw [hact] at hr
    cases hr
  · rw [hact] at hr
    dsimp only at hr
    rw [Except.ok.injEq, Prod.mk.injEq] at hr
    exact ⟨p1, rfl, hr.2.symm, hr.1.symm⟩

/-- Claim C3, amended: on a successful poll, the line became ACTIVE is
logged exactly when the previously recorded state was the recorded value
false (inactive) and the newly polled master_enable is true, and became
INACTIVE exactly when the previous state was the recorded value true and
the new value is false.  When the previous state is the never-polled
unknown, the loop logs an initial-state line instead of a transition line
(the activation side effect still runs, but the claim is about the logged
line). -/
theorem C3_amended (s : MonState) (key : String) (env : PollEnv) (doc : ActiveDoc)
    (s2 : MonState) (fx : List Effect)
    (ha : env.active = some doc) (hr : pollKey s key env = .ok (s2, fx)) :
    (Effect.logBecameActive key ∈ fx ↔
      ((alookup s.active_state key).join = some false ∧
       doc.master_enable.getD false = true)) ∧
    (Effect.logBecameInactive key ∈ fx ↔
      ((alookup s.active_state key).join = some true ∧
       doc.master_enable.getD false = false)) := by
  obtain ⟨p1, hact, hfx, _⟩ := pollKey_ok_elim s key env doc s2 fx ha hr
  subst hfx
  constructor
  · rw [List.mem_append, List.mem_append]
    constructor
    · rintro ((h | h) | h)
      · exact ⟨((mem_logBecameActive_logLines key _ _ key).1 h).2.1,
               ((mem_logBecameActive_logLines key _ _ key).1 h).2.2⟩
      · have := actStep_no_translog s key doc env _ _ p1 hact _ h
        simp [isTransLog] at this
      · have := deactStep_no_translog p1.1 key _ _ _ h
        simp [isTransLog] at this
    · rintro ⟨h1, h2⟩
      exact Or.inl (Or.inl ((mem_logBecameActive_logLines key _ _ key).2 ⟨rfl, h1, h2⟩))
  · rw [List.mem_append, List.mem_append]
    constructor
    · rintro ((h | h) | h)
      · exact ⟨((mem_logBecameInactive_logLines key _ _ key).1 h).2.1,
               ((mem_logBecameInactive_logLines key _ _ key).1 h).2.2⟩
      · have := actStep_no_translog s key doc env _ _ p1 hact _ h
        simp [isTransLog] at this
      · have := deactStep_no_translog p1.1 key _ _ _ h
        simp [isTransLog] at this
    · rintro ⟨h1, h2⟩
      exact Or.inl (Or.inl ((mem_logBecameInactive_logLines key _ _ key).2 ⟨rfl, h1, h2⟩))

/-- Claim C3 as stated is false on the unknown-state case: the previous
recorded state of senders/a is the unknown (false-equivalent) state and
the newly polled master_enable is true, yet the poll logs the line
initial state ACTIVE and not the line became ACTIVE, so the stated
if-and-only-if fails in the only-if direction at this input. -/
theorem C3_counterexample :
    (alookup c3s.active_state "senders/a").join = none ∧
    c3doc.master_enable.getD false = true ∧
    pollKey c3s "senders/a" c3env =
      .ok ({ c3s with active_state := [("senders/a", some true)] },
           [Effect.logInitial "senders/a" true]) ∧
    Effect.logBecameActive "senders/a" ∉ [Effect.logInitial "senders/a" true] :=
  ⟨rfl, rfl, rfl, by decide⟩

/-- Witness for the amended C3: polling a sender recorded inactive with
master_enable true logs became ACTIVE, and does not log became INACTIVE. -/
theorem C3_witness :
    (Effect.logBecameActive "senders/a" ∈ [Effect.logBecameActive "senders/a"] ↔
      ((alookup c3ws.active_state "senders/a").join = some false ∧
       c3doc.master_enable.getD false = true)) ∧
    (Effect.logBecameInactive "senders/a" ∈ [Effect.logBecameActive "senders/a"] ↔
      ((alookup c3ws.active_state "senders/a").join = some true ∧
       c3doc.master_enable.getD false = false)) :=
  C3_amended c3ws "senders/a" c3env c3doc
    { c3ws with active_state := [("senders/a", some true)] }
    [Effect.logBecameActive "senders/a"] rfl rfl

/-! ### C2: descriptor-file round trip -/

theorem strTruthy_some (f : String) (hf : f ≠ "") : strTruthy (some f) = true := by
  simp [strTruthy, hf]

theorem senderActivate_binding (s : MonState) (key f : String) (env : PollEnv) :
    alookup (senderActivate s key f env).1.sender_flow_ids key = some f := by
  rw [senderActivate]
  rcases hf2 : env.flow with _ | fd <;> dsimp only <;>
    exact alookup_aset_self s.sender_flow_ids key f

theorem senderActivate_files_mem (s : MonState) (key f : String) (env : PollEnv)
    (fd : FlowDoc) (hflow : env.flow = some fd) :
    (f ++ ".json") ∈ (senderActivate s key f env).1.files := by
  rw [senderActivate, hflow]
  dsimp only
  exact mem_insertFile_self _ _

theorem receiverActivate_fields (s : MonState) (key f : String) (env : PollEnv) :
    (receiverActivate s key f env).1.files = s.files ∧
    (receiverActivate s key f env).1.sender_flow_ids = s.sender_flow_ids ∧
    (receiverActivate s key f env).1.source_processes = s.source_processes ∧
    (receiverActivate s key f env).1.active_state = s.active_state := by
  rw [receiverActivate]
  exact ⟨rfl, rfl, rfl, rfl⟩

/-- Result of the activation branch for a sender with a truthy flow id:
the branch runs senderActivate, and the receiver branch that follows can
only touch the sink dictionary and the pid counter. -/
theorem actStep_sender_result (s : MonState) (key : String) (doc : ActiveDoc)
    (env : PollEnv) (f : String) (me : Bool) (prev : Option Bool)
    (hc : me = true ∧ prev ≠ some true)
    (hfid : extractFlowId doc = .ok (some f)) (hf : f ≠ "")
    (hk : startsW key "senders/" = true) :
    ∃ p, actStep s key doc env me prev = .ok p ∧
      p.1.files = (senderActivate s key f env).1.files ∧
      p.1.sender_flow_ids = (senderActivate s key f env).1.sender_flow_ids ∧
      p.1.source_processes = (senderActivate s key f env).1.source_processes ∧
      p.1.active_state = (senderActivate s key f env).1.active_state := by
  rw [actStep, if_pos hc, hfid]
  dsimp only
  have hcond : (startsW key "senders/" && strTruthy (some f)) = true := by
    rw [hk, strTruthy_some f hf]
    rfl
  rw [if_pos hcond]
  by_cases h2 : (startsW key "receivers/" && strTruthy (some f)) = true
  · rw [if_pos h2]
    refine ⟨_, rfl, ?_, ?_, ?_, ?_⟩ <;> dsimp only <;>
      simp [receiverActivate_fields]
  · rw [if_neg h2]
    exact ⟨_, rfl, rfl, rfl, rfl, rfl⟩

theorem deactSender_removes (s : MonState) (key f : String)
    (hk : startsW key "senders/" = true)
    (hb : alookup s.sender_flow_ids key = some f) :
    (f ++ ".json") ∉ (deactSender s key).1.files := by
  rw [deactSender, if_pos hk, hb]
  dsimp only
  rcases hp : alookup s.source_processes key with _ | pid <;> dsimp only <;>
    exact not_mem_removeFileFS_self _ _

theorem deactReceiver_files (s : MonState) (key : String) :
    (deactReceiver s key).1.files = s.files := by
  rw [deactReceiver]
  by_cases h : startsW key "receivers/" = true
  · rw [if_pos h]
    rcases hp : alookup s.sink_processes key with _ | pid <;> rfl
  · rw [if_neg h]

/-- Deactivation poll for a sender with a recorded flow binding: the poll
succeeds and the descriptor file of the bound flow is absent afterwards. -/
theorem pollKey_deactivates (s : MonState) (key f : String) (env : PollEnv)
    (doc : ActiveDoc)
    (ha : env.active = some doc)
    (hme : doc.master_enable.getD false = false)
    (hprev : (alookup s.active_state key).join = some true)
    (hk : startsW key "senders/" = true)
    (hb : alookup s.sender_flow_ids key = some f) :
    ∃ p2 : MonState × List Effect, pollKey s key env = .ok p2 ∧
      (f ++ ".json") ∉ p2.1.files := by
  have hna : ¬((doc.master_enable.getD false) = true ∧
      (alookup s.active_state key).join ≠ some true) := by
    rw [hme]
    simp
  rw [pollKey, ha]
  dsimp only
  rw [actStep, if_neg hna]
  dsimp only
  rw [deactStep, if_pos ⟨hme, hprev⟩]
  refine ⟨_, rfl, ?_⟩
  dsimp only
  rw [applyDeactivation]
  dsimp only
  rw [deactReceiver_files]
  exact deactSender_removes s key f hk hb

/-- Claim C2, amended: for a sender whose activation poll resolves the
truthy flow id f and whose flow-metadata fetch from the Node API yields
data, the descriptor file f.json is present immediately after the
activation poll, and absent immediately after the matching deactivation
poll.  (As stated the claim also covered activations whose flow fetch
fails; there no file is written, see the counterexample.) -/
theorem C2_amended (s : MonState) (key f : String) (env1 env2 : PollEnv)
    (doc1 doc2 : ActiveDoc) (fd : FlowDoc)
    (hk : startsW key "senders/" = true)
    (ha1 : env1.active = some doc1)
    (hme1 : doc1.master_enable.getD false = true)
    (hfid : extractFlowId doc1 = .ok (some f))
    (hf : f ≠ "")
    (hprev : (alookup s.active_state key).join ≠ some true)
    (hflow : env1.flow = some fd)
    (ha2 : env2.active = some doc2)
    (hme2 : doc2.master_enable.getD false = false) :
    ∃ p1 : MonState × List Effect, pollKey s key env1 = .ok p1 ∧
      (f ++ ".json") ∈ p1.1.files ∧
      ∃ p2 : MonState × List Effect, pollKey p1.1 key env2 = .ok p2 ∧
        (f ++ ".json") ∉ p2.1.files := by
  obtain ⟨pa, hact, hfi, hbi, hsp, has⟩ :=
    actStep_sender_result s key doc1 env1 f (doc1.master_enable.getD false)
      ((alookup s.active_state key).join) ⟨hme1, hprev⟩ hfid hf hk
  have hnd : ¬((doc1.master_enable.getD false) = false ∧
      (alookup s.active_state key).join = some true) := by
    rw [hme1]
    simp
  rw [pollKey, ha1]
  dsimp only
  rw [hact]
  dsimp only
  rw [deactStep, if_neg hnd]
  dsimp only
  refine ⟨_, rfl, ?_, ?_⟩
  · dsimp only
    rw [hfi]
    exact senderActivate_files_mem s key f env1 fd hflow
  · exact pollKey_deactivates _ key f env2 doc2 ha2 hme2
      (by dsimp only; rw [alookup_aset_self, hme1]; rfl) hk
      (by dsimp only; rw [hbi]; exact senderActivate_binding s key f env1)

/-! ### C7: process handles and re-spawning -/

/-- Claim C7, amended (no-respawn half): a poll that observes
master_enable true while the recorded state is already active runs no side
effect at all — both process dictionaries are unchanged and no effect,
in particular no spawn, is produced. -/
theorem C7_amended (s : MonState) (key : String) (env : PollEnv) (doc : ActiveDoc)
    (s2 : MonState) (fx : List Effect)
    (ha : env.active = some doc)
    (hme : doc.master_enable.getD false = true)
    (hprev : (alookup s.active_state key).join = some true)
    (hr : pollKey s key env = .ok (s2, fx)) :
    s2.source_processes = s.source_processes ∧
    s2.sink_processes = s.sink_processes ∧ fx = [] := by
  have hna : ¬((doc.master_enable.getD false) = true ∧
      (alookup s.active_state key).join ≠ some true) := by
    rw [hprev]
    simp
  have hnd : ¬((doc.master_enable.getD false) = false ∧
      (alookup s.active_state key).join = some true) := by
    rw [hme]
    simp
  rw [pollKey, ha] at hr
  dsimp only at hr
  rw [actStep, if_neg hna] at hr
  dsimp only at hr
  rw [deactStep, if_neg hnd] at hr
  dsimp only at hr
  rw [hprev, hme] at hr
  dsimp only [logLines] at hr
  rw [Except.ok.injEq, Prod.mk.injEq] at hr
  obtain ⟨h1, h2⟩ := hr
  exact ⟨by rw [← h1], by rw [← h1], by rw [← h2]; rfl⟩

/-- Claim C7 as stated is false: after the run c7events, two source
processes (pids 0 and 1) have been spawned for the single key senders/s1
and no terminate call was ever issued, so both are live at once — the
at-most-one-live-process-per-key invariant fails when re-discovery prunes
an active key that later reappears. -/
theorem C7_counterexample :
    (runEvents initState c7events).toOption.map
      (fun r => decide (Effect.spawnSource "senders/s1" 0 "-v" "colors" ∈ r.2 ∧
        Effect.spawnSource "senders/s1" 1 "-v" "colors" ∈ r.2 ∧
        Effect.terminate 0 ∉ r.2 ∧ Effect.terminate 1 ∉ r.2)) = some true := by
  decide

/-- Witness for the amended C7: polling the already-active sender as
active again leaves both process dictionaries unchanged and produces no
effect. -/
theorem C7_witness :
    c7ws.source_processes = c7ws.source_processes ∧
    c7ws.sink_processes = c7ws.sink_processes ∧ ([] : List Effect) = [] :=
  C7_amended c7ws "senders/s1" c7wenv c7doc c7ws [] rfl rfl rfl rfl

/-! ### C9: shutdown handler -/

theorem count_terminate_map (l : List (String × Nat)) (p : Nat) :
    ((l.map fun e => Effect.terminate e.2).count (Effect.terminate p)) =
      ((l.map Prod.snd).count p) := by
  induction l with
  | nil => rfl
  | cons hd t ih => simp [List.count_cons, ih, Effect.terminate.injEq]

theorem count_removeFile_zero (l : List (String × String)) (p : Nat) :
    ((l.map fun e => Effect.removeFile (e.2 ++ ".json")).count (Effect.terminate p)) = 0 := by
  induction l with
  | nil => rfl
  | cons hd t ih => simp [List.count_cons, ih]

theorem not_mem_removeFileFS (x n : String) (fs : List String) (h : x ∉ fs) :
    x ∉ removeFileFS n fs :=
  fun hm => h (mem_of_mem_removeFileFS x n fs hm)

theorem foldl_remove_preserve (l : List (String × String)) (fs : List String)
    (x : String) (h : x ∉ fs) :
    x ∉ l.foldl (fun fs e => removeFileFS (e.2 ++ ".json") fs) fs := by
  induction l generalizing fs with
  | nil => exact h
  | cons hd t ih => exact ih _ (not_mem_removeFileFS x _ fs h)

theorem foldl_remove_not_mem (l : List (String × String)) (b : String × String)
    (hb : b ∈ l) (fs : List String) :
    (b.2 ++ ".json") ∉ l.foldl (fun fs e => removeFileFS (e.2 ++ ".json") fs) fs := by
  induction l generalizing fs with
  | nil => cases hb
  | cons hd t ih =>
    rcases List.mem_cons.1 hb with rfl | hb2
    · exact foldl_remove_preserve t _ _ (not_mem_removeFileFS_self _ _)
    · exact ih hb2 _

/-- Claim C9: on keyboard interrupt, when the pids held in the two process
dictionaries are pairwise distinct (as they are when each came from a
distinct spawn), every tracked handle receives exactly one terminate call,
and the descriptor file of every outstanding sender-to-flow binding is
absent when the handler finishes. -/
theorem C9_shutdown (s : MonState)
    (hnd : ((s.source_processes ++ s.sink_processes).map Prod.snd).Nodup) :
    (∀ e ∈ s.source_processes ++ s.sink_processes,
      (shutdown s).2.count (Effect.terminate e.2) = 1) ∧
    (∀ b ∈ s.sender_flow_ids, (b.2 ++ ".json") ∉ (shutdown s).1.files) := by
  constructor
  · intro e he
    rw [shutdown]
    dsimp only
    rw [List.count_append, List.count_append, count_terminate_map,
      count_terminate_map, count_removeFile_zero]
    have hmem : e.2 ∈ (s.source_processes ++ s.sink_processes).map Prod.snd :=
      List.mem_map_of_mem Prod.snd he
    have hcount := List.count_eq_one_of_mem hnd hmem
    rw [List.map_append, List.count_append] at hcount
    omega
  · intro b hb
    rw [shutdown]
    dsimp only
    exact foldl_remove_not_mem s.sender_flow_ids b hb s.files

/-- Witness for C9: with one tracked source process, one tracked sink
process and one outstanding binding, the source handle is terminated
exactly once and the descriptor file is gone after the handler. -/
theorem C9_witness :
    ((c9s.source_processes ++ c9s.sink_processes).map Prod.snd).Nodup ∧
    (shutdown c9s).2.count (Effect.terminate 0) = 1 ∧
    ("f1" ++ ".json") ∉ (shutdown c9s).1.files :=
  ⟨by decide, (C9_shutdown c9s (by decide)).1 ("senders/a", 0) (by decide),
   (C9_shutdown c9s (by decide)).2 ("senders/a", "f1") (by decide)⟩

/-! ### C10: a tracked source process always has a flow binding -/

theorem isSome_aset_of {a : Type} (l : List (String × a)) (k : String) (v : a)
    (k' : String) (h : (alookup l k').isSome = true) :
    (alookup (aset l k v) k').isSome = true := by
  by_cases hk : k' = k
  · subst hk
    rw [alookup_aset_self]
    rfl
  · rw [alookup_aset_ne l k k' v hk]
    exact h

theorem senderActivate_inv (s : MonState) (key f : String) (env : PollEnv)
    (h : SenderInv s) : SenderInv (senderActivate s key f env).1 := by
  rw [senderActivate]
  rcases hf2 : env.flow with _ | fd
  · dsimp only
    intro k hk
    exact isSome_aset_of s.sender_flow_ids key f k (h k hk)
  · dsimp only
    intro k hk
    by_cases hkk : k = key
    · subst hkk
      rw [alookup_aset_self]
      rfl
    · rw [alookup_aset_ne _ _ _ _ hkk] at hk
      exact isSome_aset_of s.sender_flow_ids key f k (h k hk)

theorem receiverActivate_inv (s : MonState) (key f : String) (env : PollEnv)
    (h : SenderInv s) : SenderInv (receiverActivate s key f env).1 := by
  rw [receiverActivate]
  intro k hk
  exact h k hk

theorem deactSender_inv (s : MonState) (key : String) (h : SenderInv s) :
    SenderInv (deactSender s key).1 := by
  rw [deactSender]
  by_cases hs : startsW key "senders/" = true
  · rw [if_pos hs]
    rcases hb : alookup s.sender_flow_ids key with _ | f
    · exact h
    · dsimp only
      rcases hp : alookup s.source_processes key with _ | pid
      · dsimp only
        intro k hk
        by_cases hkk : k = key
        · subst hkk
          rw [hp] at hk
          cases hk
        · rw [alookup_aerase_ne _ _ _ hkk]
          exact h k hk
      · dsimp only
        intro k hk
        by_cases hkk : k = key
        · subst hkk
          rw [alookup_aerase_self] at hk
          cases hk
        · rw [alookup_aerase_ne _ _ _ hkk] at hk
          rw [alookup_aerase_ne _ _ _ hkk]
          exact h k hk
  · rw [if_neg hs]
    exact h

theorem deactReceiver_inv (s : MonState) (key : String) (h : SenderInv s) :
    SenderInv (deactReceiver s key).1 := by
  rw [deactReceiver]
  by_cases hs : startsW key "receivers/" = true
  · rw [if_pos hs]
    rcases hp : alookup s.sink_processes key with _ | pid
    · exact h
    · intro k hk
      exact h k hk
  · rw [if_neg hs]
    exact h

theorem applyDeactivation_inv (s : MonState) (key : String) (h : SenderInv s) :
    SenderInv (applyDeactivation s key).1 := by
  rw [applyDeactivation]
  exact deactReceiver_inv _ key (deactSender_inv s key h)

theorem actStep_inv (s : MonState) (key : String) (doc : ActiveDoc) (env : PollEnv)
    (me : Bool) (prev : Option Bool) (p : MonState × List Effect)
    (hr : actStep s key doc env me prev = .ok p) (h : SenderInv s) :
    SenderInv p.1 := by
  rw [actStep] at hr
  by_cases hc : me = true ∧ prev ≠ some true
  · rw [if_pos hc] at hr
    rcases hfid : extractFlowId doc with err | fid
    · rw [hfid] at hr
      cases hr
    · rw [hfid] at hr
      dsimp only at hr
      rw [Except.ok.injEq] at hr
      subst hr
      by_cases h1 : (startsW key "senders/" && strTruthy fid) = true <;>
        by_cases h2 : (startsW key "receivers/" && strTruthy fid) = true <;>
        simp only [h1, h2, if_true, if_false, Bool.false_eq_true, if_pos, if_neg]
      · exact receiverActivate_inv _ key (fid.getD "") env
          (senderActivate_inv s key (fid.getD "") env h)
      · exact senderActivate_inv s key (fid.getD "") env h
      · exact receiverActivate_inv s key (fid.getD "") env h
      · exact h
  · rw [if_neg hc] at hr
    cases hr
    exact h

theorem deactStep_inv (s : MonState) (key : String) (me : Bool) (prev : Option Bool)
    (h : SenderInv s) : SenderInv (deactStep s key me prev).1 := by
  rw [deactStep]
  by_cases hc : me = false ∧ prev = some true
  · rw [if_pos hc]
    exact applyDeactivation_inv s key h
  · rw [if_neg hc]
    exact h

theorem pollKey_inv (s : MonState) (key : String) (env : PollEnv) (s2 : MonState)
    (fx : List Effect) (hr : pollKey s key env = .ok (s2, fx)) (h : SenderInv s) :
    SenderInv s2 := by
  rcases henv : env.active with _ | doc
  · rw [pollKey, henv] at hr
    rw [Except.ok.injEq, Prod.mk.injEq] at hr
    rw [← hr.1]
    exact h
  · obtain ⟨p1, hact, hfx, hs2⟩ := pollKey_ok_elim s key env doc s2 fx henv hr
    rw [hs2]
    intro k hk
    exact deactStep_inv p1.1 key _ _ (actStep_inv s key doc env _ _ p1 hact h) k hk

theorem rediscover_inv (s : MonState) (res : List (String × List String))
    (h : SenderInv s) : SenderInv (rediscover s res) := by
  intro k hk
  exact h k hk

theorem runEvents_inv (events : List Event) :
    ∀ s s2 fx, runEvents s events = .ok (s2, fx) → SenderInv s → SenderInv s2 := by
  induction events with
  | nil =>
    intro s s2 fx hr h
    rw [runEvents] at hr
    rw [Except.ok.injEq, Prod.mk.injEq] at hr
    rw [← hr.1]
    exact h
  | cons e es ih =>
    intro s s2 fx hr h
    rw [runEvents] at hr
    rcases hstep : stepEvent s e with err | p1
    · rw [hstep] at hr
      cases hr
    · rw [hstep] at hr
      dsimp only at hr
      rcases hrun : runEvents p1.1 es with err | p2
      · rw [hrun] at hr
        cases hr
      · rw [hrun] at hr
        dsimp only at hr
        rw [Except.ok.injEq, Prod.mk.injEq] at hr
        have hinv1 : SenderInv p1.1 := by
          rcases e with denv | ⟨key, penv⟩
          · rw [stepEvent] at hstep
            rw [Except.ok.injEq] at hstep
            rw [← hstep]
            exact rediscover_inv s (discoverResources denv) h
          · rw [stepEvent] at hstep
            exact pollKey_inv s key penv p1.1 p1.2 (by rw [hstep]) h
        rw [← hr.1]
        exact ih p1.1 p2.1 p2.2 (by rw [hrun]) hinv1

theorem deactSender_terminates (s : MonState) (key : String) (pid : Nat)
    (hk : startsW key "senders/" = true)
    (hp : alookup s.source_processes key = some pid)
    (hb : (alookup s.sender_flow_ids key).isSome = true) :
    Effect.terminate pid ∈ (deactSender s key).2 := by
  rcases hbs : alookup s.sender_flow_ids key with _ | f
  · rw [hbs] at hb
    cases hb
  · rw [deactSender, if_pos hk, hbs]
    dsimp only
    rw [hp]
    dsimp only
    simp

theorem applyDeactivation_terminates (s : MonState) (key : String) (pid : Nat)
    (hk : startsW key "senders/" = true)
    (hp : alookup s.source_processes key = some pid)
    (hb : (alookup s.sender_flow_ids key).isSome = true) :
    Effect.terminate pid ∈ (applyDeactivation s key).2 := by
  rw [applyDeactivation]
  dsimp only
  rw [List.mem_append]
  exact Or.inl (deactSender_terminates s key pid hk hp hb)

/-- Claim C10: in every state reachable by a run of the monitor from its
initial state, a sender key holding a source-process handle also holds a
sender-to-flow binding, and therefore the deactivation path — whose
process-termination step sits under the binding guard — always issues the
terminate call for a tracked source process. -/
theorem C10_handle_implies_binding (events : List Event) (s : MonState)
    (fx : List Effect) (h : runEvents initState events = .ok (s, fx)) :
    (∀ k, (alookup s.source_processes k).isSome = true →
      (alookup s.sender_flow_ids k).isSome = true) ∧
    (∀ k pid, startsW k "senders/" = true →
      alookup s.source_processes k = some pid →
      Effect.terminate pid ∈ (applyDeactivation s k).2) := by
  have hinit : SenderInv initState := by
    intro k hk
    cases hk
  have hinv : SenderInv s := runEvents_inv events initState s fx h hinit
  exact ⟨hinv, fun k pid hk hp =>
    applyDeactivation_terminates s k pid hk hp (hinv k (by rw [hp]; rfl))⟩

/-! ### Concrete instances for C2 and C10 -/

/-- Claim C2 as stated is false when the Node API flow fetch fails: the
activation poll of senders/s1 resolves the flow id f1, yet no descriptor
file f1.json exists immediately after the activation side effect, because
the file is only written when the flow-metadata fetch yields data. -/
theorem C2_counterexample :
    extractFlowId c2doc = .ok (some "f1") ∧
    pollKey c2s "senders/s1" c2envNoFlow =
      .ok (c2postNoFlow, [Effect.logInitial "senders/s1" true]) ∧
    "f1.json" ∉ c2postNoFlow.files :=
  ⟨rfl, rfl, by decide⟩

/-- Witness for the amended C2: senders/s1 activates with flow id f1 and a
successful flow fetch, so f1.json exists right after the activation poll
and is gone right after the deactivation poll. -/
theorem C2_witness :
    ∃ p1 : MonState × List Effect, pollKey c2s "senders/s1" c2envFlow = .ok p1 ∧
      ("f1" ++ ".json") ∈ p1.1.files ∧
      ∃ p2 : MonState × List Effect, pollKey p1.1 "senders/s1" c2envOff = .ok p2 ∧
        ("f1" ++ ".json") ∉ p2.1.files :=
  C2_amended c2s "senders/s1" "f1" c2envFlow c2envOff c2doc c2docOff c2fd
    rfl rfl rfl rfl (by decide) (by decide) rfl rfl rfl

/-- Witness for C10: after discovering and activating one sender, its
tracked source process (pid 0) does receive the terminate call on the
deactivation path. -/
theorem C10_witness :
    Effect.terminate 0 ∈ (applyDeactivation c10post "senders/s1").2 :=
  (C10_handle_implies_binding c10events c10post c10fx rfl).2 "senders/s1" 0 rfl rfl
